import Mathlib

/-
Verification of libp2p/transport/capabilities.py: a shallow embedding of the
capability-classifier helpers over a small model of Python attribute lookup,
truthiness coercion and zero-argument invocation.
-/

namespace Libp2p

/-- Model of a Python value as seen by the capability helpers: the null/none
value, booleans, integers, strings, zero-argument callables (modelled by the
value they return), and opaque handle objects (events, semaphores, scopes). -/
inductive PyVal where
  | none
  | bool (b : Bool)
  | int (n : Int)
  | str (s : String)
  | fn (ret : PyVal)
  | obj (tag : Nat)
deriving DecidableEq, Repr

/-- Python truthiness coercion, as performed by the builtin bool(...):
None, False, 0 and the empty string are falsy; functions and objects truthy. -/
def truthy : PyVal → Bool
  | PyVal.none => false
  | PyVal.bool b => b
  | PyVal.int n => decide (n ≠ 0)
  | PyVal.str s => decide (s ≠ "")
  | PyVal.fn _ => true
  | PyVal.obj _ => true

/-- Python callable(...) on our value model: only functions are invocable. -/
def is_callable : PyVal → Bool
  | PyVal.fn _ => true
  | _ => false

/-- Zero-argument invocation. Calling a non-invocable value raises in Python,
modelled by Option.none. -/
def call0 : PyVal → Option PyVal
  | PyVal.fn r => some r
  | _ => Option.none

/-- A Python object as seen by the helpers: its attribute dictionary. -/
structure PyObj where
  attrs : List (String × PyVal)
deriving DecidableEq, Repr

/-- Python getattr(o, name, default): the attribute value when present,
the supplied default otherwise. -/
def getattr (o : PyObj) (name : String) (default : PyVal) : PyVal :=
  match o.attrs.lookup name with
  | some v => v
  | Option.none => default

/-- Python hasattr(o, name): whether the attribute is present (whatever its
value, None included). -/
def hasattr (o : PyObj) (name : String) : Bool :=
  (o.attrs.lookup name).isSome

/-- Attribute name constant from the source. -/
def PROVIDES_SECURE_ATTRIBUTE : String := "provides_secure_connection"

/-- Attribute name constant from the source. -/
def PROVIDES_MUXED_ATTRIBUTE : String := "provides_muxed_connection"

/-- Attribute name used by the connection helpers in the source. -/
def SET_RESOURCE_SCOPE : String := "set_resource_scope"

/-- Attribute name used by the connection helpers in the source. -/
def IS_ESTABLISHED : String := "is_established"

/-- Attribute name used by the connection helpers in the source. -/
def CONNECTED_EVENT : String := "_connected_event"

/-- Attribute name used by the connection helpers in the source. -/
def NEGOTIATION_SEMAPHORE : String := "_negotiation_semaphore"

/-- bool(getattr(transport, PROVIDES_SECURE_ATTRIBUTE, False)) -/
def transport_provides_secure_connection (transport : PyObj) : Bool :=
  truthy (getattr transport PROVIDES_SECURE_ATTRIBUTE (PyVal.bool false))

/-- bool(getattr(transport, PROVIDES_MUXED_ATTRIBUTE, False)) -/
def transport_provides_muxed_connection (transport : PyObj) : Bool :=
  truthy (getattr transport PROVIDES_MUXED_ATTRIBUTE (PyVal.bool false))

/-- transport_provides_secure_connection(t) and transport_provides_muxed_connection(t) -/
def transport_provides_secure_muxed (transport : PyObj) : Bool :=
  transport_provides_secure_connection transport
    && transport_provides_muxed_connection transport

/-- hasattr(conn, "set_resource_scope") and callable(getattr(conn, "set_resource_scope", None)) -/
def muxed_conn_has_resource_scope (muxed_conn : PyObj) : Bool :=
  hasattr muxed_conn SET_RESOURCE_SCOPE
    && is_callable (getattr muxed_conn SET_RESOURCE_SCOPE PyVal.none)

/-- hasattr(conn, "is_established") and hasattr(conn, "_connected_event") -/
def muxed_conn_has_establishment_wait (muxed_conn : PyObj) : Bool :=
  hasattr muxed_conn IS_ESTABLISHED && hasattr muxed_conn CONNECTED_EVENT

/-- hasattr(conn, "_negotiation_semaphore") and
getattr(conn, "_negotiation_semaphore", None) is not None -/
def muxed_conn_has_negotiation_semaphore (muxed_conn : PyObj) : Bool :=
  hasattr muxed_conn NEGOTIATION_SEMAPHORE
    && decide (getattr muxed_conn NEGOTIATION_SEMAPHORE PyVal.none ≠ PyVal.none)

/-- getattr(conn, "_connected_event", None) -/
def muxed_conn_get_establishment_waiter (muxed_conn : PyObj) : PyVal :=
  getattr muxed_conn CONNECTED_EVENT PyVal.none

/-- established = getattr(conn, "is_established", None); if established is None:
return True; if callable(established): return bool(established());
return bool(established). The invocation goes through call0, so the result is
Option.none exactly when a non-invocable value would have been called. -/
def muxed_conn_is_established (muxed_conn : PyObj) : Option Bool :=
  let established := getattr muxed_conn IS_ESTABLISHED PyVal.none
  if established = PyVal.none then
    some true
  else if is_callable established then
    (call0 established).map truthy
  else
    some (truthy established)

/-- Modelled from the spec: the Upgrade Planner's four mutually exclusive
plan variants. The Planner itself lives in the orchestrator (swarm), which is
not among the provided source files; only its decision table is specified. -/
inductive UpgradePlan where
  | RunBoth
  | RunMuxerOnly
  | RunSecurityOnly
  | RunNeither
deriving DecidableEq, Repr

/-- Modelled from the spec: the Upgrade Planner decision table over the two
transport capability booleans (providesSecure, providesMuxed). -/
def upgrade_planner (providesSecure providesMuxed : Bool) : UpgradePlan :=
  match providesSecure, providesMuxed with
  | false, false => UpgradePlan.RunBoth
  | true, false => UpgradePlan.RunMuxerOnly
  | false, true => UpgradePlan.RunSecurityOnly
  | true, true => UpgradePlan.RunNeither

/-- Modelled from the spec: the plan the orchestrator computes for a
transport, feeding the Classifier's two verdicts into the decision table. -/
def plan_for (transport : PyObj) : UpgradePlan :=
  upgrade_planner (transport_provides_secure_connection transport)
    (transport_provides_muxed_connection transport)

/-- Spec-side restatement of ConnectionIsEstablished, amended to what the
code does: absent member or a present member whose value is the null/none
value both yield true; an invocable member yields the truthiness of its
return value; any other present value yields its own truthiness. Compared
against muxed_conn_is_established, which is translated from the source. -/
def is_established_amended_spec (muxed_conn : PyObj) : Bool :=
  match muxed_conn.attrs.lookup IS_ESTABLISHED with
  | Option.none => true
  | some PyVal.none => true
  | some (PyVal.fn r) => truthy r
  | some v => truthy v

/-- A connection whose is_established attribute is present and set to the
null/none value, the input refuting claim C1. -/
def conn_is_established_none_value : PyObj :=
  PyObj.mk [(IS_ESTABLISHED, PyVal.none)]

/-- A connection with no capability markers at all. -/
def conn_no_markers : PyObj := PyObj.mk []

/-- A transport whose secure marker is a non-zero integer and whose muxed
marker is absent. -/
def transport_secure_int_marker : PyObj :=
  PyObj.mk [(PROVIDES_SECURE_ATTRIBUTE, PyVal.int 7)]

/-- A connection carrying an establishment-wait handle object only. -/
def conn_with_event_handle : PyObj :=
  PyObj.mk [(CONNECTED_EVENT, PyVal.obj 5)]

/-- A connection whose establishment-status member is present (true) and
whose wait-handle member is present but set to the null/none value. -/
def conn_event_none_with_status : PyObj :=
  PyObj.mk [(IS_ESTABLISHED, PyVal.bool true), (CONNECTED_EVENT, PyVal.none)]

/-- C1 counterexample: on a connection whose is_established member is present
with the null/none value — a present, non-invocable, falsy value — the code
returns true, not the false the claim requires for such values. -/
theorem is_established_none_value_counterexample :
    muxed_conn_is_established conn_is_established_none_value = some true ∧
      some true ≠ (some false : Option Bool) := by
  exact ⟨by decide, by decide⟩

/-- C1 (amended): ConnectionIsEstablished returns true when the
establishment-status member is absent or present with the null/none value;
the truthiness of the member's zero-argument call result when invocable; and
the truthiness of the member's value when present, non-null and not invocable
(so a present value 0 yields false, but a present None yields true). -/
theorem is_established_amended_correct (c : PyObj) :
    muxed_conn_is_established c = some (is_established_amended_spec c) := by
  unfold muxed_conn_is_established is_established_amended_spec getattr
  cases h : c.attrs.lookup IS_ESTABLISHED with
  | none => simp [h]
  | some v => cases v <;> simp [h, truthy, is_callable, call0]

/-- C2: ConnectionHasEstablishmentWait returns true iff both the
establishment-status member and the wait-handle member are present; either
alone, or neither, yields false. -/
theorem has_establishment_wait_iff_both_present (c : PyObj) :
    muxed_conn_has_establishment_wait c = true ↔
      (c.attrs.lookup IS_ESTABLISHED).isSome = true ∧
        (c.attrs.lookup CONNECTED_EVENT).isSome = true := by
  simp [muxed_conn_has_establishment_wait, hasattr, Bool.and_eq_true]

/-- C3: TransportProvidesSecureAndMuxed is the logical AND of
TransportProvidesSecure and TransportProvidesMuxed. -/
theorem secure_muxed_iff_secure_and_muxed (t : PyObj) :
    transport_provides_secure_muxed t = true ↔
      transport_provides_secure_connection t = true ∧
        transport_provides_muxed_connection t = true := by
  simp [transport_provides_secure_muxed, Bool.and_eq_true]

/-- C4: the Upgrade Planner is a pure total function matching the four-row
table, the outcomes are mutually exclusive and exhaustive (RunNeither holds
exactly when both booleans do), and for every transport the plan is
RunNeither iff transport_provides_secure_muxed holds. -/
theorem upgrade_planner_table :
    upgrade_planner false false = UpgradePlan.RunBoth ∧
      upgrade_planner true false = UpgradePlan.RunMuxerOnly ∧
      upgrade_planner false true = UpgradePlan.RunSecurityOnly ∧
      upgrade_planner true true = UpgradePlan.RunNeither ∧
      (∀ s m : Bool, upgrade_planner s m = UpgradePlan.RunNeither ↔
        s = true ∧ m = true) ∧
      (∀ t : PyObj, plan_for t = UpgradePlan.RunNeither ↔
        transport_provides_secure_muxed t = true) := by
  refine ⟨rfl, rfl, rfl, rfl, ?_, ?_⟩
  · intro s m
    cases s <;> cases m <;> simp [upgrade_planner]
  · intro t
    unfold plan_for transport_provides_secure_muxed
    cases hs : transport_provides_secure_connection t <;>
      cases hm : transport_provides_muxed_connection t <;>
        simp [upgrade_planner]

/-- C5: ConnectionHasResourceScope returns true exactly when the
set_resource_scope member is present and invocable; absence, a null/none
value, or any non-invocable value yields false. -/
theorem has_resource_scope_iff_callable_setter (c : PyObj) :
    muxed_conn_has_resource_scope c = true ↔
      ∃ v, c.attrs.lookup SET_RESOURCE_SCOPE = some v ∧
        is_callable v = true := by
  unfold muxed_conn_has_resource_scope hasattr getattr
  cases h : c.attrs.lookup SET_RESOURCE_SCOPE with
  | none => simp [h]
  | some v => simp [h]

/-- C6: ConnectionHasNegotiationThrottle returns true exactly when the
semaphore member is present and not the null/none value, regardless of the
value's invocability or truthiness. -/
theorem has_negotiation_semaphore_iff_present_nonnull (c : PyObj) :
    muxed_conn_has_negotiation_semaphore c = true ↔
      ∃ v, c.attrs.lookup NEGOTIATION_SEMAPHORE = some v ∧
        v ≠ PyVal.none := by
  unfold muxed_conn_has_negotiation_semaphore hasattr getattr
  cases h : c.attrs.lookup NEGOTIATION_SEMAPHORE with
  | none => simp [h]
  | some v => simp [h]

/-- C7: each transport marker probe returns false when its marker is absent
and the marker value's truthiness when present. -/
theorem transport_markers_absent_default_present_truthy (t : PyObj) :
    (t.attrs.lookup PROVIDES_SECURE_ATTRIBUTE = Option.none →
      transport_provides_secure_connection t = false) ∧
    (∀ v, t.attrs.lookup PROVIDES_SECURE_ATTRIBUTE = some v →
      transport_provides_secure_connection t = truthy v) ∧
    (t.attrs.lookup PROVIDES_MUXED_ATTRIBUTE = Option.none →
      transport_provides_muxed_connection t = false) ∧
    (∀ v, t.attrs.lookup PROVIDES_MUXED_ATTRIBUTE = some v →
      transport_provides_muxed_connection t = truthy v) := by
  refine ⟨?_, ?_, ?_, ?_⟩
  · intro h
    simp [transport_provides_secure_connection, getattr, h, truthy]
  · intro v h
    simp [transport_provides_secure_connection, getattr, h]
  · intro h
    simp [transport_provides_muxed_connection, getattr, h, truthy]
  · intro v h
    simp [transport_provides_muxed_connection, getattr, h]

/-- C7 witness: on a transport whose secure marker holds the integer 7 and
whose muxed marker is absent, the secure probe coerces to true and the muxed
probe defaults to false. -/
theorem transport_markers_witness :
    transport_provides_secure_connection transport_secure_int_marker =
        truthy (PyVal.int 7) ∧
      truthy (PyVal.int 7) = true ∧
      transport_provides_muxed_connection transport_secure_int_marker = false := by
  refine ⟨?_, by decide, ?_⟩
  · exact (transport_markers_absent_default_present_truthy
      transport_secure_int_marker).2.1 (PyVal.int 7) (by decide)
  · exact (transport_markers_absent_default_present_truthy
      transport_secure_int_marker).2.2.1 (by decide)

/-- C8: ConnectionGetEstablishmentWaiter returns the wait-handle member's
value whenever the member is present — independent of the status member —
and the null/none value when the member is absent. -/
theorem get_establishment_waiter_lookup (c : PyObj) :
    (∀ v, c.attrs.lookup CONNECTED_EVENT = some v →
      muxed_conn_get_establishment_waiter c = v) ∧
    (c.attrs.lookup CONNECTED_EVENT = Option.none →
      muxed_conn_get_establishment_waiter c = PyVal.none) := by
  constructor
  · intro v h
    simp [muxed_conn_get_establishment_waiter, getattr, h]
  · intro h
    simp [muxed_conn_get_establishment_waiter, getattr, h]

/-- C8 witness: a connection carrying only the handle object gets it back,
and a markerless connection gets the null/none value. -/
theorem get_establishment_waiter_witness :
    muxed_conn_get_establishment_waiter conn_with_event_handle = PyVal.obj 5 ∧
      muxed_conn_get_establishment_waiter conn_no_markers = PyVal.none := by
  constructor
  · exact (get_establishment_waiter_lookup conn_with_event_handle).1
      (PyVal.obj 5) (by decide)
  · exact (get_establishment_waiter_lookup conn_no_markers).2 (by decide)

/-- C9: every classifier operation is total, over every transport or
connection object. The one operation that performs an invocation,
muxed_conn_is_established, never errors (so a non-invocable member is never
called), and each of the eight operations yields its documented default when
a capability marker it reads is absent: false for every boolean probe except
muxed_conn_is_established (whose default is true), and the null/none value
for the waiter accessor. -/
theorem classifier_total_no_raise (c : PyObj) :
    (muxed_conn_is_established c).isSome = true ∧
    (c.attrs.lookup PROVIDES_SECURE_ATTRIBUTE = Option.none →
      transport_provides_secure_connection c = false) ∧
    (c.attrs.lookup PROVIDES_MUXED_ATTRIBUTE = Option.none →
      transport_provides_muxed_connection c = false) ∧
    (c.attrs.lookup PROVIDES_SECURE_ATTRIBUTE = Option.none →
      transport_provides_secure_muxed c = false) ∧
    (c.attrs.lookup PROVIDES_MUXED_ATTRIBUTE = Option.none →
      transport_provides_secure_muxed c = false) ∧
    (c.attrs.lookup IS_ESTABLISHED = Option.none →
      muxed_conn_has_establishment_wait c = false) ∧
    (c.attrs.lookup CONNECTED_EVENT = Option.none →
      muxed_conn_has_establishment_wait c = false) ∧
    (c.attrs.lookup SET_RESOURCE_SCOPE = Option.none →
      muxed_conn_has_resource_scope c = false) ∧
    (c.attrs.lookup NEGOTIATION_SEMAPHORE = Option.none →
      muxed_conn_has_negotiation_semaphore c = false) ∧
    (c.attrs.lookup IS_ESTABLISHED = Option.none →
      muxed_conn_is_established c = some true) ∧
    (c.attrs.lookup CONNECTED_EVENT = Option.none →
      muxed_conn_get_establishment_waiter c = PyVal.none) := by
  refine ⟨?_, ?_, ?_, ?_, ?_, ?_, ?_, ?_, ?_, ?_, ?_⟩
  · unfold muxed_conn_is_established getattr
    cases h : c.attrs.lookup IS_ESTABLISHED with
    | none => simp [h]
    | some v => cases v <;> simp [h, is_callable, call0]
  · intro h
    simp [transport_provides_secure_connection, getattr, h, truthy]
  · intro h
    simp [transport_provides_muxed_connection, getattr, h, truthy]
  · intro h
    simp [transport_provides_secure_muxed,
      transport_provides_secure_connection, getattr, h, truthy]
  · intro h
    simp [transport_provides_secure_muxed,
      transport_provides_muxed_connection, getattr, h, truthy]
  · intro h
    simp [muxed_conn_has_establishment_wait, hasattr, h]
  · intro h
    simp [muxed_conn_has_establishment_wait, hasattr, h]
  · intro h
    simp [muxed_conn_has_resource_scope, hasattr, h]
  · intro h
    simp [muxed_conn_has_negotiation_semaphore, hasattr, h]
  · intro h
    simp [muxed_conn_is_established, getattr, h]
  · intro h
    simp [muxed_conn_get_establishment_waiter, getattr, h]

/-- C9 witness: on an object with no markers every one of the eight
operations returns its default without error. -/
theorem classifier_total_no_raise_witness :
    (muxed_conn_is_established conn_no_markers).isSome = true ∧
      transport_provides_secure_connection conn_no_markers = false ∧
      transport_provides_muxed_connection conn_no_markers = false ∧
      transport_provides_secure_muxed conn_no_markers = false ∧
      muxed_conn_has_establishment_wait conn_no_markers = false ∧
      muxed_conn_has_resource_scope conn_no_markers = false ∧
      muxed_conn_has_negotiation_semaphore conn_no_markers = false ∧
      muxed_conn_is_established conn_no_markers = some true ∧
      muxed_conn_get_establishment_waiter conn_no_markers = PyVal.none := by
  have h := classifier_total_no_raise conn_no_markers
  exact ⟨h.1, h.2.1 rfl, h.2.2.1 rfl, h.2.2.2.1 rfl, h.2.2.2.2.2.1 rfl,
    h.2.2.2.2.2.2.2.1 rfl, h.2.2.2.2.2.2.2.2.1 rfl,
    h.2.2.2.2.2.2.2.2.2.1 rfl, h.2.2.2.2.2.2.2.2.2.2 rfl⟩

/-- C10: when the wait-handle member is present but holds the null/none value
and the status member is present, the waitability verdict is true while the
waiter accessor yields the null/none value — presence, not value, drives the
verdict. -/
theorem waitable_verdict_vs_waiter_value (c : PyObj)
    (h1 : c.attrs.lookup CONNECTED_EVENT = some PyVal.none)
    (h2 : (c.attrs.lookup IS_ESTABLISHED).isSome = true) :
    muxed_conn_has_establishment_wait c = true ∧
      muxed_conn_get_establishment_waiter c = PyVal.none := by
  constructor
  · simp [muxed_conn_has_establishment_wait, hasattr, h1, h2]
  · simp [muxed_conn_get_establishment_waiter, getattr, h1]

/-- C10 witness: a connection with status true and a null wait-handle member
is judged waitable yet the accessor returns the null/none value. -/
theorem waitable_verdict_vs_waiter_value_witness :
    muxed_conn_has_establishment_wait conn_event_none_with_status = true ∧
      muxed_conn_get_establishment_waiter conn_event_none_with_status =
        PyVal.none :=
  waitable_verdict_vs_waiter_value conn_event_none_with_status
    (by decide) (by decide)

end Libp2p
